import Mathlib

/-!
Verification of the SEO analysis pipeline in `backend/main.py`.

The Python code is shallowly embedded: each method of `SEOAnalyzer` and the
`/api/analyze` endpoint body become Lean functions over `String`, `Nat`, `Int`
and `Rat` (Python floats are idealized as exact rationals).  External
capabilities (NLTK sentence/word tokenization, the stopword corpus, textstat's
Flesch formula, TextBlob polarity, and the optional HuggingFace client) are
passed in as an explicit `Ext` record of functions, mirroring the spec's
treatment of them as opaque collaborators; every analysis function is a
deterministic function of the text and that record.
-/

namespace SEO

/-- Python `str.strip` whitespace: space, tab, newline, carriage return,
vertical tab, form feed (the ASCII whitespace that the inputs at stake use). -/
def isPySpace (c : Char) : Bool :=
  c == ' ' || c == '\t' || c == '\n' || c == '\r' || c.val == 11 || c.val == 12

/-- Strip leading and trailing whitespace from a list of characters. -/
def stripChars (l : List Char) : List Char :=
  ((l.dropWhile isPySpace).reverse.dropWhile isPySpace).reverse

/-- Python `str.strip()`. -/
def pyStrip (s : String) : String := String.mk (stripChars s.data)

/-- Python `str.rstrip(".")`: drop trailing period characters. -/
def rstripDot (s : String) : String :=
  String.mk ((s.data.reverse.dropWhile (· == '.')).reverse)

/-- Python `str.isalpha()` restricted to ASCII letters (the embedding's
alphabet): non-empty and every character a letter. -/
def pyIsAlpha (s : String) : Bool :=
  s ≠ "" && s.data.all Char.isAlpha

/-- Python `str.isdigit()` restricted to ASCII digits. -/
def pyIsDigit (s : String) : Bool :=
  s ≠ "" && s.data.all Char.isDigit

/-- Python `str.rstrip()`: drop trailing whitespace only. -/
def rstripWs (s : String) : String :=
  String.mk ((s.data.reverse.dropWhile isPySpace).reverse)

/-- Worker for `pySplitWs`: split a character list on whitespace runs,
accumulating the current word reversed. -/
def splitWsAux : List Char → List Char → List (List Char)
  | [], cur => if cur = [] then [] else [cur.reverse]
  | c :: rest, cur =>
    if isPySpace c then
      if cur = [] then splitWsAux rest [] else cur.reverse :: splitWsAux rest []
    else splitWsAux rest (c :: cur)

/-- Python `str.split()` with no argument: split on whitespace runs, no empty
pieces. -/
def pySplitWs (s : String) : List String :=
  (splitWsAux s.data []).map String.mk

/-- Python slicing `s[:n]` on strings (defined over the character list so the
kernel can evaluate it on concrete inputs). -/
def strTake (s : String) (n : Nat) : String := String.mk (s.data.take n)

/-- Python `str.lower()` over ASCII letters. -/
def pyLower (s : String) : String := String.mk (s.data.map Char.toLower)

/-- Python `str.upper()` over ASCII letters. -/
def pyUpper (s : String) : String := String.mk (s.data.map Char.toUpper)

/-- Split a character list on a single separator character: the pieces between
separators, kept even when empty (Python `str.split(sep)`). -/
def splitOnChar (sep : Char) : List Char → List (List Char)
  | [] => [[]]
  | c :: rest =>
    let r := splitOnChar sep rest
    if c = sep then [] :: r
    else
      match r with
      | p :: ps => (c :: p) :: ps
      | [] => [[c]]

/-- Python `text.split("\n")`. -/
def pySplitLines (s : String) : List String :=
  (splitOnChar '\n' s.data).map String.mk

/-- Python `s.endswith(".")`: the last character is a period. -/
def endsWithDot (s : String) : Bool := s.data.getLast? == some '.'

/-- Python `s.startswith(pre)`. -/
def startsWithLit (s pre : String) : Bool := pre.data.isPrefixOf s.data

/-- Python `round` of the exact fraction `n / d` (`d` positive) to the
nearest integer, ties to even (banker's rounding), in pure integer
arithmetic: `f` is the floor and `r` the non-negative remainder, and the
fractional part `r / d` is compared with one half by comparing `2 * r`
with `d`. -/
def roundHalfEvenFrac (n d : ℤ) : ℤ :=
  let f := Int.fdiv n d
  let r := n - f * d
  if 2 * r < d then f
  else if 2 * r > d then f + 1
  else if f % 2 = 0 then f else f + 1

/-- Python `round(q)` on an exact rational, ties to even. -/
def roundHalfEven (q : ℚ) : ℤ := roundHalfEvenFrac q.num (q.den : ℤ)

/-- Python `round(x, 1)`: round to one decimal place, ties to even (the
rounding of `10 * q`, divided back by 10). -/
def pyRound1 (q : ℚ) : ℚ := (roundHalfEvenFrac (q.num * 10) (q.den : ℤ) : ℚ) / 10

/-!  ## Data model (the pydantic models of main.py lines 59-113)  -/

/-- `Recommendation` (main.py): one actionable SEO fix. -/
structure Recommendation where
  id : Nat
  title : String
  description : String
  impact : String
  effort : String
  category : String
  priority : Nat
  actionable : Bool
  fixSuggestion : String
deriving DecidableEq, Repr

/-- `MetaTags` (main.py). -/
structure MetaTags where
  title : String
  description : String
  keywords : List String
deriving DecidableEq, Repr

/-- `ContentHealth` (main.py); the float score is idealized as a rational. -/
structure ContentHealth where
  readabilityScore : ℚ
  readingTime : Nat
  wordCount : Nat
  health : String
deriving DecidableEq, Repr

/-- The `headings` dictionary that `analyze_content_structure` builds. -/
structure Headings where
  h1 : Nat
  h2 : Nat
  h3 : Nat
  h4 : Nat
  issues : List String
deriving DecidableEq, Repr

/-- The `paragraphs` dictionary that `analyze_content_structure` builds. -/
structure Paragraphs where
  total : Nat
  averageLength : ℚ
  longParagraphs : Nat
deriving DecidableEq, Repr

/-- The `readability` dictionary that `analyze_content_structure` builds. -/
structure ReadabilityInfo where
  fleschScore : ℚ
  grade : String
  complexity : String
deriving DecidableEq, Repr

/-- `ContentStructure` (main.py), with its dynamic dictionaries made rigid. -/
structure ContentStructure where
  headings : Headings
  paragraphs : Paragraphs
  readability : ReadabilityInfo
  linkingSuggestions : List String
deriving DecidableEq, Repr

/-- `GooglePreview` (main.py). -/
structure GooglePreview where
  title : String
  url : String
  description : String
  titleTruncated : Bool
  descriptionTruncated : Bool
deriving DecidableEq, Repr

/-- `AnalysisResult` (main.py): the response of `/api/analyze`. -/
structure AnalysisResult where
  seoScore : Int
  contentHealth : ContentHealth
  contentStructure : ContentStructure
  recommendations : List Recommendation
  metaTags : MetaTags
  googlePreview : GooglePreview
  sentiment : String
  keywords : List String
  rawText : String
deriving DecidableEq, Repr

/-- The external capabilities the pipeline calls (NLTK tokenizers and stopword
corpus, textstat's Flesch formula — `none` models the formula raising — the
TextBlob polarity, and the optional HuggingFace client, whose keyword list is
empty and whose sentiment is `none` when the client is disabled).  Passing them
as a record of pure functions mirrors the spec's view of them as opaque,
deterministic-per-request collaborators. -/
structure Ext where
  sentTok : String → List String
  wordTok : String → List String
  isStop : String → Bool
  flesch : String → Option ℚ
  aiSentimentLabel : String → Option String
  polarity : String → ℚ
  aiKeywords : String → List String
  aiSuggestions : String → List String → List String

/-!  ## create_google_preview (main.py lines 734-752)  -/

/-- `SEOAnalyzer.create_google_preview`, translated line by line. -/
def create_google_preview (title description : String) : GooglePreview :=
  let base_url := "yoursite.com"
  let title_truncated : Bool := decide (title.length > 60)
  let description_truncated : Bool := decide (description.length > 160)
  let display_title := if title_truncated then strTake title 57 ++ "..." else title
  let display_description :=
    if description_truncated then strTake description 157 ++ "..." else description
  { title := display_title
    url := base_url
    description := display_description
    titleTruncated := title_truncated
    descriptionTruncated := description_truncated }

/-- C7: the preview's truncation flags are decided by the original title and
description lengths (`> 60`, `> 160`) alone, regardless of the displayed
string; when a flag is set the displayed string is the first 57 (resp. 157)
characters plus an ellipsis, and otherwise the original is returned
unchanged. -/
theorem C7_google_preview_truncation (title description : String) :
    ((create_google_preview title description).titleTruncated = true ↔
      title.length > 60) ∧
    ((create_google_preview title description).descriptionTruncated = true ↔
      description.length > 160) ∧
    ((create_google_preview title description).title =
      if title.length > 60 then strTake title 57 ++ "..." else title) ∧
    ((create_google_preview title description).description =
      if description.length > 160 then strTake description 157 ++ "..." else description) := by
  refine ⟨?_, ?_, ?_, ?_⟩ <;> simp [create_google_preview]

/-!  ## calculate_seo_score (main.py lines 754-815)  -/

/-- `SEOAnalyzer.calculate_seo_score`, translated line by line: four weighted
buckets plus the final `min(100, max(0, int(score)))` clamp. -/
def calculate_seo_score (readability : ℚ) (word_count : Nat)
    (keywords : List String) (title description : String) : Int :=
  let score : Int := 0
  let score := score +
    (if readability ≥ 70 then 25 else if readability ≥ 50 then 20
     else if readability ≥ 30 then 15 else 10)
  let score := score +
    (if word_count ≥ 600 then 25 else if word_count ≥ 300 then 20
     else if word_count ≥ 150 then 15 else 5)
  let score := score +
    (if keywords.length ≥ 8 then 25 else if keywords.length ≥ 5 then 20
     else if keywords.length ≥ 3 then 15 else 5)
  let title_score : Int :=
    if 30 ≤ title.length ∧ title.length ≤ 60 then 15
    else if 20 ≤ title.length ∧ title.length ≤ 80 then 10 else 5
  let desc_score : Int :=
    if 120 ≤ description.length ∧ description.length ≤ 160 then 10
    else if 100 ≤ description.length ∧ description.length ≤ 180 then 7 else 3
  let score := score + title_score + desc_score
  min 100 (max 0 score)

/-- Spec, §4.8: readability bucket (`>=70` gives 25, `>=50` gives 20,
`>=30` gives 15, else 10). -/
def readabilityBucket (r : ℚ) : Int :=
  if r ≥ 70 then 25 else if r ≥ 50 then 20 else if r ≥ 30 then 15 else 10

/-- Spec, §4.8: word-count bucket. -/
def wordCountBucket (wc : Nat) : Int :=
  if wc ≥ 600 then 25 else if wc ≥ 300 then 20 else if wc ≥ 150 then 15 else 5

/-- Spec, §4.8: keyword-count bucket. -/
def keywordBucket (n : Nat) : Int :=
  if n ≥ 8 then 25 else if n ≥ 5 then 20 else if n ≥ 3 then 15 else 5

/-- Spec, §4.8: title-length part of the combined bucket. -/
def titleBucket (len : Nat) : Int :=
  if 30 ≤ len ∧ len ≤ 60 then 15 else if 20 ≤ len ∧ len ≤ 80 then 10 else 5

/-- Spec, §4.8: description-length part of the combined bucket. -/
def descriptionBucket (len : Nat) : Int :=
  if 120 ≤ len ∧ len ≤ 160 then 10 else if 100 ≤ len ∧ len ≤ 180 then 7 else 3

/-- The spec's sum of the bucket contributions, with no clamp. -/
def specScoreSum (r : ℚ) (wc kwCount titleLen descLen : Nat) : Int :=
  readabilityBucket r + wordCountBucket wc + keywordBucket kwCount +
    titleBucket titleLen + descriptionBucket descLen

theorem readabilityBucket_bounds (r : ℚ) :
    10 ≤ readabilityBucket r ∧ readabilityBucket r ≤ 25 := by
  unfold readabilityBucket; split_ifs <;> omega

theorem wordCountBucket_bounds (wc : Nat) :
    5 ≤ wordCountBucket wc ∧ wordCountBucket wc ≤ 25 := by
  unfold wordCountBucket; split_ifs <;> omega

theorem keywordBucket_bounds (n : Nat) :
    5 ≤ keywordBucket n ∧ keywordBucket n ≤ 25 := by
  unfold keywordBucket; split_ifs <;> omega

theorem titleBucket_bounds (len : Nat) :
    5 ≤ titleBucket len ∧ titleBucket len ≤ 15 := by
  unfold titleBucket; split_ifs <;> omega

theorem descriptionBucket_bounds (len : Nat) :
    3 ≤ descriptionBucket len ∧ descriptionBucket len ≤ 10 := by
  unfold descriptionBucket; split_ifs <;> omega

theorem specScoreSum_bounds (r : ℚ) (wc kw tl dl : Nat) :
    28 ≤ specScoreSum r wc kw tl dl ∧ specScoreSum r wc kw tl dl ≤ 100 := by
  have h1 := readabilityBucket_bounds r
  have h2 := wordCountBucket_bounds wc
  have h3 := keywordBucket_bounds kw
  have h4 := titleBucket_bounds tl
  have h5 := descriptionBucket_bounds dl
  unfold specScoreSum; omega

theorem calculate_seo_score_eq_sum (r : ℚ) (wc : Nat) (kws : List String)
    (title description : String) :
    calculate_seo_score r wc kws title description =
      specScoreSum r wc kws.length title.length description.length := by
  have hb := specScoreSum_bounds r wc kws.length title.length description.length
  have hraw : calculate_seo_score r wc kws title description =
      min 100 (max 0 (specScoreSum r wc kws.length title.length description.length)) := by
    unfold calculate_seo_score specScoreSum readabilityBucket wordCountBucket
      keywordBucket titleBucket descriptionBucket
    simp only [zero_add]
  rw [hraw, max_eq_right (by omega), min_eq_right (by omega)]

/-- C1: `calculate_seo_score` returns exactly the sum of the spec's bucket
contributions for readability, word count, keyword count, title length and
description length, and that value is an integer in `[0, 100]`; being a plain
function of its five arguments, it is deterministic and pure. -/
theorem C1_seo_score_is_spec_sum (r : ℚ) (wc : Nat) (kws : List String)
    (title description : String) :
    calculate_seo_score r wc kws title description =
      readabilityBucket r + wordCountBucket wc + keywordBucket kws.length +
        titleBucket title.length + descriptionBucket description.length ∧
    0 ≤ calculate_seo_score r wc kws title description ∧
    calculate_seo_score r wc kws title description ≤ 100 := by
  have h := calculate_seo_score_eq_sum r wc kws title description
  have hb := specScoreSum_bounds r wc kws.length title.length description.length
  refine ⟨h, ?_, ?_⟩ <;> (rw [h]; unfold specScoreSum at hb ⊢) <;> omega

/-!  ## A concrete external-capability record

Used to evaluate the pipeline at concrete inputs: one sentence per non-blank
text, whitespace word-splitting, a fixed Flesch value, HuggingFace disabled
(no AI keywords, no AI sentiment, no AI suggestions). -/

/-- A simple, fully concrete instantiation of the external capabilities. -/
def simpleExt : Ext where
  sentTok := fun t => if pyStrip t = "" then [] else [pyStrip t]
  wordTok := fun t => pySplitWs t
  isStop := fun _ => false
  flesch := fun _ => some 50
  aiSentimentLabel := fun _ => none
  polarity := fun _ => 0
  aiKeywords := fun _ => []
  aiSuggestions := fun _ _ => []

/-!  ## extract_title (main.py lines 411-430)  -/

/-- The `for line in lines[:3]` loop's acceptance test on an already stripped
line, in the source's order of conjuncts. -/
def titleLineOk (line : String) : Bool :=
  line ≠ "" && line.length < 100 && !(endsWithDot line) && line.length > 10

/-- `SEOAnalyzer.extract_title`, translated line by line: scan `lines[:3]` of
the stripped text (each candidate stripped again), else fall back to the first
sentence (trailing periods stripped when returned whole), else truncate the
raw text. -/
def extract_title (ext : Ext) (text : String) : String :=
  let lines := pySplitLines (pyStrip text)
  match ((lines.take 3).map pyStrip).find? titleLineOk with
  | some line => line
  | none =>
    match ext.sentTok text with
    | first_sentence :: _ =>
      if first_sentence.length ≤ 60 then rstripDot first_sentence
      else strTake first_sentence 57 ++ "..."
    | [] => if text.length > 60 then strTake text 60 ++ "..." else text

/-- The title algorithm exactly as claim C3 words it: scan the first 3
NON-EMPTY lines, return the qualifying line verbatim, fall back to the first
sentence returned AS-IS when at most 60 characters, and with no sentences
truncate the raw text to 60 characters. -/
def extract_title_claim (ext : Ext) (text : String) : String :=
  let nonEmptyLines := ((pySplitLines text).map pyStrip).filter (fun l => l ≠ "")
  match (nonEmptyLines.take 3).find? (fun l =>
      l.length < 100 && l.length > 10 && !(endsWithDot l)) with
  | some line => line
  | none =>
    match ext.sentTok text with
    | first_sentence :: _ =>
      if first_sentence.length ≤ 60 then first_sentence
      else strTake first_sentence 57 ++ "..."
    | [] => strTake text 60

/-- A sentence segmenter behaving as NLTK does on the counterexample input
(two sentences, split at the period). -/
def titleCexExt : Ext :=
  { simpleExt with sentTok := fun _ => ["Hi.", "Quality Example Title"] }

/-- C3 counterexample: on `"Hi.\n\n\nQuality Example Title"` the code scans
the first 3 lines INCLUDING the two blank ones, so the qualifying fourth line
is never considered and the fallback returns `"Hi"` (trailing period
stripped), while the claim's first-3-non-empty-lines scan returns
`"Quality Example Title"`. -/
theorem C3_counterexample :
    extract_title titleCexExt "Hi.\n\n\nQuality Example Title" ≠
      extract_title_claim titleCexExt "Hi.\n\n\nQuality Example Title" := by
  decide

/-- The amended first-lines scan: walk the first three lines of the stripped
text in order, blank lines skipped but still occupying scan slots. -/
def firstTitleLine : List String → Option String
  | [] => none
  | l :: rest =>
    let s := pyStrip l
    if s ≠ "" ∧ s.length < 100 ∧ endsWithDot s = false ∧ s.length > 10 then some s
    else firstTitleLine rest

/-- The amended C3 algorithm: the scan covers the first 3 lines of the
stripped text (blank lines are not skipped over, they use up scan slots); the
first-sentence fallback strips trailing periods when the sentence is at most
60 characters; with no sentences the raw text is returned unchanged when at
most 60 characters and otherwise truncated to 60 characters plus an
ellipsis. -/
def extract_title_amended (ext : Ext) (text : String) : String :=
  match firstTitleLine ((pySplitLines (pyStrip text)).take 3) with
  | some line => line
  | none =>
    match ext.sentTok text with
    | first_sentence :: _ =>
      if first_sentence.length ≤ 60 then rstripDot first_sentence
      else strTake first_sentence 57 ++ "..."
    | [] => if text.length ≤ 60 then text else strTake text 60 ++ "..."

theorem titleLineOk_iff (s : String) :
    titleLineOk s = true ↔
      (s ≠ "" ∧ s.length < 100 ∧ endsWithDot s = false ∧ s.length > 10) := by
  simp [titleLineOk, and_assoc]

theorem firstTitleLine_eq_find (ls : List String) :
    firstTitleLine ls = (ls.map pyStrip).find? titleLineOk := by
  induction ls with
  | nil => rfl
  | cons l rest ih =>
    simp only [firstTitleLine, List.map_cons, List.find?]
    by_cases h : titleLineOk (pyStrip l) = true
    · rw [if_pos ((titleLineOk_iff _).mp h), h]
    · rw [if_neg (fun hc => h ((titleLineOk_iff _).mpr hc)), ih]
      cases hb : titleLineOk (pyStrip l)
      · rfl
      · exact absurd hb h

/-- A sentence segmenter behaving as NLTK does on the input `"."` (the single
sentence `"."`). -/
def dotExt : Ext := { simpleExt with sentTok := fun _ => ["."] }

/-- C3 amended: `extract_title` scans the first 3 raw lines of the stripped
text (blank lines consume scan slots) and returns the first stripped line
under 100 characters, longer than 10 and not ending in a period; otherwise it
returns the first sentence with trailing periods stripped when at most 60
characters, else its first 57 characters plus an ellipsis; with no sentences
it returns the text, truncated to 60 characters plus an ellipsis only when
longer than 60.  The result can be empty for non-empty input: on `"."` the
fallback strips the lone period away. -/
theorem C3_extract_title_amended :
    (∀ (ext : Ext) (text : String),
      extract_title ext text = extract_title_amended ext text) ∧
    extract_title dotExt "." = "" := by
  constructor
  · intro ext text
    simp only [extract_title, extract_title_amended, firstTitleLine_eq_find]
    cases h : (((pySplitLines (pyStrip text)).take 3).map pyStrip).find? titleLineOk with
    | some l => rfl
    | none =>
      cases hs : ext.sentTok text with
      | cons s rest => rfl
      | nil =>
        rcases Nat.lt_or_ge 60 text.length with hlt | hge
        · rw [if_pos hlt, if_neg (by omega)]
        · rw [if_neg (by omega), if_pos hge]
  · decide

/-!  ## generate_meta_description (main.py lines 432-450)  -/

/-- The `for sentence in sentences` loop of `generate_meta_description`:
append `sentence + " "` while the accumulated string stays within 155
characters, break at the first sentence that would exceed it. -/
def descLoop : List String → String → String
  | [], description => description
  | sentence :: rest, description =>
    let potential_desc := description ++ sentence ++ " "
    if potential_desc.length ≤ 155 then descLoop rest potential_desc
    else description

/-- `SEOAnalyzer.generate_meta_description`, translated line by line,
including the `elif len(result) > 155` re-truncation branch. -/
def generate_meta_description (ext : Ext) (text : String) : String :=
  let description := descLoop (ext.sentTok text) ""
  let result := pyStrip description
  if result = "" then
    if text.length > 155 then strTake text 155 ++ "..." else text
  else if result.length > 155 then strTake result 152 ++ "..."
  else result

/-- One step of the greedy packing, as a fold over sentences: once stopped,
every later sentence is ignored. -/
def greedyStep (st : String × Bool) (sentence : String) : String × Bool :=
  match st with
  | (acc, false) => (acc, false)
  | (acc, true) =>
    let p := acc ++ sentence ++ " "
    if p.length ≤ 155 then (p, true) else (acc, false)

/-- The description algorithm exactly as claim C8 words it: the same greedy
sentence packing, a trailing-whitespace trim, and on an empty accumulated
result a fallback that is ALWAYS the raw text truncated to 155 characters
plus an ellipsis. -/
def generate_meta_description_claim (ext : Ext) (text : String) : String :=
  let packed := ((ext.sentTok text).foldl greedyStep ("", true)).1
  let result := rstripWs packed
  if result = "" then strTake text 155 ++ "..." else result

/-- A single sentence of exactly 155 characters. -/
def s155 : String := String.mk (List.replicate 155 'a')

/-- A segmenter returning the whole text as one sentence (what NLTK does on a
single period-free sentence). -/
def wholeExt : Ext := { simpleExt with sentTok := fun t => [t] }

set_option maxRecDepth 4000 in
/-- C8 counterexample: on a single sentence of exactly 155 characters the
greedy accumulator stays empty (the sentence plus its trailing space is 156
characters), and the code returns the raw text UNCHANGED because its length
does not exceed 155, while the claim's fallback appends an ellipsis. -/
theorem C8_counterexample :
    generate_meta_description wholeExt s155 ≠
      generate_meta_description_claim wholeExt s155 := by
  decide

theorem foldl_greedyStep_stopped (l : List String) (acc : String) :
    l.foldl greedyStep (acc, false) = (acc, false) := by
  induction l generalizing acc with
  | nil => rfl
  | cons s rest ih => simpa only [List.foldl_cons, greedyStep] using ih acc

theorem descLoop_eq_foldl (l : List String) :
    ∀ acc, descLoop l acc = (l.foldl greedyStep (acc, true)).1 := by
  induction l with
  | nil => intro acc; rfl
  | cons s rest ih =>
    intro acc
    simp only [descLoop, List.foldl_cons, greedyStep]
    split_ifs with hp
    · exact ih _
    · rw [foldl_greedyStep_stopped]

theorem length_mk (l : List Char) : (String.mk l).length = l.length := rfl

theorem stripChars_length_le (l : List Char) :
    (stripChars l).length ≤ l.length := by
  unfold stripChars
  calc ((l.dropWhile isPySpace).reverse.dropWhile isPySpace).reverse.length
      = ((l.dropWhile isPySpace).reverse.dropWhile isPySpace).length :=
        List.length_reverse _
    _ ≤ (l.dropWhile isPySpace).reverse.length :=
        (List.IsSuffix.sublist (List.dropWhile_suffix _)).length_le
    _ = (l.dropWhile isPySpace).length := List.length_reverse _
    _ ≤ l.length :=
        (List.IsSuffix.sublist (List.dropWhile_suffix _)).length_le

theorem pyStrip_length_le (s : String) : (pyStrip s).length ≤ s.length := by
  simpa only [pyStrip, length_mk] using stripChars_length_le s.data

theorem descLoop_length_le (l : List String) :
    ∀ acc : String, acc.length ≤ 155 → (descLoop l acc).length ≤ 155 := by
  induction l with
  | nil => exact fun acc h => h
  | cons s rest ih =>
    intro acc h
    simp only [descLoop]
    split_ifs with hp
    · exact ih _ hp
    · exact h

/-- The amended C8 algorithm: same greedy packing, surrounding whitespace
trimmed, and when the accumulated result is empty the fallback is the raw
text unchanged when its length is at most 155 and otherwise its first 155
characters plus an ellipsis.  The source's re-truncation branch for a result
over 155 characters is unreachable (the accumulator never exceeds 155), so it
is absent here. -/
def generate_meta_description_amended (ext : Ext) (text : String) : String :=
  let result := pyStrip ((ext.sentTok text).foldl greedyStep ("", true)).1
  if result = "" then
    if text.length ≤ 155 then text else strTake text 155 ++ "..."
  else result

/-- C8 amended: `generate_meta_description` greedily concatenates sentences,
each followed by a space, while the accumulated string stays within 155
characters, stopping at the first sentence that would exceed the budget; it
trims surrounding whitespace; and when the accumulated result is empty it
falls back to the raw text, truncated to 155 characters plus an ellipsis only
when the raw text itself is longer than 155 characters (shorter raw text is
returned unchanged). -/
theorem C8_meta_description_amended (ext : Ext) (text : String) :
    generate_meta_description ext text =
      generate_meta_description_amended ext text := by
  simp only [generate_meta_description, generate_meta_description_amended,
    descLoop_eq_foldl]
  set r := pyStrip ((ext.sentTok text).foldl greedyStep ("", true)).1 with hr
  by_cases hempty : r = ""
  · rw [if_pos hempty, if_pos hempty]
    rcases Nat.lt_or_ge 155 text.length with hlt | hge
    · rw [if_pos hlt, if_neg (by omega)]
    · rw [if_neg (by omega), if_pos hge]
  · rw [if_neg hempty, if_neg hempty]
    have hlen : r.length ≤ 155 := by
      rw [hr, ← descLoop_eq_foldl]
      exact le_trans (pyStrip_length_le _) (descLoop_length_le _ _ (by decide))
    rw [if_neg (by omega)]

/-!  ## extract_keywords (main.py lines 452-499)  -/

/-- The substitution `re.sub(r"[^\w\s]", " ", ...)` character by character:
word characters (alphanumeric or underscore) and whitespace survive,
everything else becomes a space. -/
def cleanChar (c : Char) : Char :=
  if c.isAlphanum || c == '_' || isPySpace c then c else ' '

/-- `re.sub(r"[^\w\s]", " ", text)`. -/
def cleanText (s : String) : String := String.mk (s.data.map cleanChar)

/-- The distinct elements of a list in first-occurrence order: the key order
of a Python `Counter` built by iteration. -/
def dedupFirstOcc (l : List String) : List String :=
  l.foldl (fun acc a => if a ∈ acc then acc else acc ++ [a]) []

/-- `Counter(l).most_common(n)` keys: the distinct words, stably sorted by
descending count (ties keep first-occurrence order), the top `n` kept. -/
def mostCommon (l : List String) (n : Nat) : List String :=
  ((dedupFirstOcc l).mergeSort (fun a b => decide (l.count b ≤ l.count a))).take n

/-- `SEOAnalyzer.extract_keywords`, translated line by line: lowercase, strip
punctuation, tokenize, filter (stopwords, length greater than 3, alphabetic,
not a digit string), frequency-rank the top `2 * max_keywords`, then merge
the AI keywords first and the traditional keywords second, deduplicating by
exact match, and truncate to `max_keywords`.  The membership test `kw ∉ acc`
plays the role of the source's `seen` set, which always holds exactly the
elements of `combined_keywords`. -/
def extract_keywords (ext : Ext) (text : String) (max_keywords : Nat) :
    List String :=
  let text_lower := pyLower text
  let cleaned_text := cleanText text_lower
  let tokens := ext.wordTok cleaned_text
  let filtered_words := tokens.filter (fun word =>
    !ext.isStop word && word.length > 3 && pyIsAlpha word && !pyIsDigit word)
  let traditional_keywords := mostCommon filtered_words (max_keywords * 2)
  let ai_keywords := ext.aiKeywords text
  let combined₁ := ai_keywords.foldl (fun acc kw =>
    if kw ∉ acc ∧ kw.length > 2 then acc ++ [kw] else acc) []
  let combined₂ := traditional_keywords.foldl (fun acc kw =>
    if kw ∉ acc ∧ acc.length < max_keywords then acc ++ [kw] else acc) combined₁
  combined₂.take max_keywords

theorem nodup_guardedAppend_foldl {α : Type} [DecidableEq α]
    (p : List α → α → Prop) [∀ acc a, Decidable (p acc a)] :
    ∀ (l acc : List α), acc.Nodup →
      (l.foldl (fun acc a => if a ∉ acc ∧ p acc a then acc ++ [a] else acc)
        acc).Nodup := by
  intro l
  induction l with
  | nil => exact fun acc h => h
  | cons a rest ih =>
    intro acc h
    simp only [List.foldl_cons]
    split_ifs with hc
    · exact ih _ (by simp [List.nodup_append, h, hc.1])
    · exact ih _ h

/-- C5: for every text and requested maximum (a count, as in the source's
signature `max_keywords: int = 10`), the keyword list is at most
`max_keywords` long and holds no two equal strings, whatever the external
keyword capability and tokenizer return. -/
theorem C5_keywords_bounded_nodup (ext : Ext) (text : String)
    (max_keywords : Nat) :
    (extract_keywords ext text max_keywords).length ≤ max_keywords ∧
    (extract_keywords ext text max_keywords).Nodup := by
  simp only [extract_keywords]
  constructor
  · rw [List.length_take]; omega
  · refine List.Nodup.sublist (List.take_sublist _ _) ?_
    exact nodup_guardedAppend_foldl (fun acc a => acc.length < max_keywords) _ _
      (nodup_guardedAppend_foldl (fun _ a => a.length > 2) _ _ List.nodup_nil)

/-!  ## generate_recommendations (main.py lines 830-964)

Each conditional append of the source becomes one builder applied to the
running `rec_id`; the state `(recommendations, rec_id)` is threaded through
the six rule sites in source order.  -/

/-- Rule 1a: `len(title) < 30`. -/
def mkTitleShortRec (title : String) (rec_id : Nat) : Recommendation where
  id := rec_id
  title := "Optimize Title Length"
  description := "Your title is too short. Expand it to 30-60 characters to include more relevant keywords and improve search visibility."
  impact := "High"
  effort := "Quick Fix"
  category := "Technical"
  priority := 1
  actionable := true
  fixSuggestion := "Expand your current title '" ++ title ++ "' by adding descriptive keywords or your brand name to reach 30-60 characters."

/-- Rule 1b: `len(title) > 60`. -/
def mkTitleLongRec (title : String) (rec_id : Nat) : Recommendation where
  id := rec_id
  title := "Shorten Title Tag"
  description := "Your title is too long and may be truncated in search results. Keep it between 30-60 characters for optimal display."
  impact := "High"
  effort := "Quick Fix"
  category := "Technical"
  priority := 1
  actionable := true
  fixSuggestion := "Shorten your title to approximately: '" ++ strTake title 50 ++ "...'"

/-- Rule 2: `len(description) < 120`. -/
def mkDescShortRec (rec_id : Nat) : Recommendation where
  id := rec_id
  title := "Expand Meta Description"
  description := "Your meta description is too short. Expand it to 120-160 characters to provide more context and improve click-through rates."
  impact := "Medium"
  effort := "Quick Fix"
  category := "Technical"
  priority := 2
  actionable := true
  fixSuggestion := "Add more descriptive text about your content's value proposition and include relevant keywords naturally."

/-- Rule 3: `if keywords:` — the primary keyword is `keywords[0]`. -/
def mkKeywordRec (primary_keyword : String) (rec_id : Nat) : Recommendation where
  id := rec_id
  title := "Optimize for Primary Keyword: '" ++ primary_keyword ++ "'"
  description := "Focus on your primary keyword '" ++ primary_keyword ++ "' by ensuring it appears strategically throughout your content."
  impact := "High"
  effort := "Moderate"
  category := "Keywords"
  priority := 1
  actionable := true
  fixSuggestion := "1. Include '" ++ primary_keyword ++ "' in your title tag\n2. Use '" ++ primary_keyword ++ "' in the first 100 words\n3. Add '" ++ primary_keyword ++ "' to H2/H3 subheadings\n4. Maintain 1-2% keyword density throughout content"

/-- Rule 4: `word_count < 300`. -/
def mkLengthRec (rec_id : Nat) : Recommendation where
  id := rec_id
  title := "Increase Content Length"
  description := "Add more valuable content to reach at least 300 words. Longer content typically ranks better and provides more value to readers."
  impact := "High"
  effort := "Moderate"
  category := "Content"
  priority := 1
  actionable := true
  fixSuggestion := "Add sections covering: detailed explanations, examples, step-by-step guides, FAQs, or case studies to expand your content meaningfully."

/-- Rule 5: `readability < 50`. -/
def mkReadabilityRec (rec_id : Nat) : Recommendation where
  id := rec_id
  title := "Improve Content Readability"
  description := "Your content complexity may hinder user engagement. Simplify language and structure for better accessibility."
  impact := "Medium"
  effort := "Moderate"
  category := "Content"
  priority := 2
  actionable := true
  fixSuggestion := "1. Replace complex words with simpler alternatives\n2. Split sentences longer than 20 words\n3. Use transition words for flow\n4. Add bullet points and numbered lists\n5. Include subheadings every 200-300 words"

/-- Rule 6: zero h1 and zero h2 headings. -/
def mkStructureRec (rec_id : Nat) : Recommendation where
  id := rec_id
  title := "Add Content Structure"
  description := "Your content lacks clear headings. Add headings to improve readability and SEO."
  impact := "Medium"
  effort := "Quick Fix"
  category := "Content"
  priority := 2
  actionable := true
  fixSuggestion := "Add H2 and H3 headings every 200-300 words to break up your content and make it more scannable."

/-- One `recommendations.append(Recommendation(id=rec_id, ...)); rec_id += 1`
pair of the source, on the state `(recommendations, rec_id)`. -/
def pushRec (s : List Recommendation × Nat) (mk : Nat → Recommendation) :
    List Recommendation × Nat :=
  (s.1 ++ [mk s.2], s.2 + 1)

/-- Rule site 1 (title optimization): the `if len(title) < 30 ... elif
len(title) > 60` pair of the source. -/
def recRule1 (title : String) (s : List Recommendation × Nat) :
    List Recommendation × Nat :=
  if title.length < 30 then pushRec s (mkTitleShortRec title)
  else if title.length > 60 then pushRec s (mkTitleLongRec title)
  else s

/-- Rule site 2 (meta description): `if len(description) < 120`. -/
def recRule2 (description : String) (s : List Recommendation × Nat) :
    List Recommendation × Nat :=
  if description.length < 120 then pushRec s mkDescShortRec else s

/-- Rule site 3 (keyword optimization): `if keywords:` with
`primary_keyword = keywords[0]`. -/
def recRule3 (keywords : List String) (s : List Recommendation × Nat) :
    List Recommendation × Nat :=
  match keywords with
  | [] => s
  | primary_keyword :: _ => pushRec s (mkKeywordRec primary_keyword)

/-- Rule site 4 (content length): `if word_count < 300`. -/
def recRule4 (word_count : Nat) (s : List Recommendation × Nat) :
    List Recommendation × Nat :=
  if word_count < 300 then pushRec s mkLengthRec else s

/-- Rule site 5 (readability): `if readability < 50`. -/
def recRule5 (readability : ℚ) (s : List Recommendation × Nat) :
    List Recommendation × Nat :=
  if readability < 50 then pushRec s mkReadabilityRec else s

/-- Rule site 6 (structure): zero h1 and zero h2 headings. -/
def recRule6 (cs : ContentStructure) (s : List Recommendation × Nat) :
    List Recommendation × Nat :=
  if cs.headings.h1 = 0 ∧ cs.headings.h2 = 0 then pushRec s mkStructureRec
  else s

/-- The recommendation list built by `generate_recommendations` BEFORE the
final `[:8]` slice: the six rule sites evaluated in source order, starting
from the empty list and `rec_id = 1`. -/
def generate_recommendations_raw (keywords : List String) (word_count : Nat)
    (readability : ℚ) (title description : String) (cs : ContentStructure) :
    List Recommendation :=
  (recRule6 cs (recRule5 readability (recRule4 word_count (recRule3 keywords
    (recRule2 description (recRule1 title ([], 1))))))).1

/-- `SEOAnalyzer.generate_recommendations`: the rule evaluation above followed
by the source's `return recommendations[:8]`. -/
def generate_recommendations (keywords : List String) (word_count : Nat)
    (readability : ℚ) (title description : String) (cs : ContentStructure) :
    List Recommendation :=
  (generate_recommendations_raw keywords word_count readability title
    description cs).take 8

/-- The invariant of the `(recommendations, rec_id)` state: the counter is
one past the list length and the `id` fields so far are `1, ..., length`. -/
def RecsOk (s : List Recommendation × Nat) : Prop :=
  s.2 = s.1.length + 1 ∧ s.1.map (fun r => r.id) = List.range' 1 s.1.length

theorem RecsOk_push (s : List Recommendation × Nat)
    (mk : Nat → Recommendation) (hid : (mk s.2).id = s.2) (h : RecsOk s) :
    RecsOk (pushRec s mk) := by
  obtain ⟨h1, h2⟩ := h
  have hid2 : (mk (s.1.length + 1)).id = s.1.length + 1 := by rw [← h1]; exact hid
  refine ⟨by simp [pushRec, h1], ?_⟩
  simp only [pushRec, List.map_append, List.map_cons, List.map_nil, h2, hid2,
    h1, List.length_append, List.length_cons, List.length_nil,
    List.range'_concat, Nat.one_mul, Nat.add_zero]
  simp [Nat.add_comm]

theorem pushRec_length (s : List Recommendation × Nat)
    (mk : Nat → Recommendation) : (pushRec s mk).1.length = s.1.length + 1 := by
  simp [pushRec]

theorem recRule1_spec (title : String) (s : List Recommendation × Nat)
    (h : RecsOk s) : RecsOk (recRule1 title s) ∧
      (recRule1 title s).1.length ≤ s.1.length + 1 := by
  unfold recRule1
  split_ifs
  · exact ⟨RecsOk_push s _ rfl h, by rw [pushRec_length]⟩
  · exact ⟨RecsOk_push s _ rfl h, by rw [pushRec_length]⟩
  · exact ⟨h, by omega⟩

theorem recRule2_spec (description : String) (s : List Recommendation × Nat)
    (h : RecsOk s) : RecsOk (recRule2 description s) ∧
      (recRule2 description s).1.length ≤ s.1.length + 1 := by
  unfold recRule2
  split_ifs
  · exact ⟨RecsOk_push s _ rfl h, by rw [pushRec_length]⟩
  · exact ⟨h, by omega⟩

theorem recRule3_spec (keywords : List String) (s : List Recommendation × Nat)
    (h : RecsOk s) : RecsOk (recRule3 keywords s) ∧
      (recRule3 keywords s).1.length ≤ s.1.length + 1 := by
  cases keywords with
  | nil => exact ⟨h, Nat.le_succ _⟩
  | cons pk rest =>
    exact ⟨RecsOk_push s _ rfl h, by rw [recRule3, pushRec_length]⟩

theorem recRule4_spec (word_count : Nat) (s : List Recommendation × Nat)
    (h : RecsOk s) : RecsOk (recRule4 word_count s) ∧
      (recRule4 word_count s).1.length ≤ s.1.length + 1 := by
  unfold recRule4
  split_ifs
  · exact ⟨RecsOk_push s _ rfl h, by rw [pushRec_length]⟩
  · exact ⟨h, by omega⟩

theorem recRule5_spec (readability : ℚ) (s : List Recommendation × Nat)
    (h : RecsOk s) : RecsOk (recRule5 readability s) ∧
      (recRule5 readability s).1.length ≤ s.1.length + 1 := by
  unfold recRule5
  split_ifs
  · exact ⟨RecsOk_push s _ rfl h, by rw [pushRec_length]⟩
  · exact ⟨h, by omega⟩

theorem recRule6_spec (cs : ContentStructure) (s : List Recommendation × Nat)
    (h : RecsOk s) : RecsOk (recRule6 cs s) ∧
      (recRule6 cs s).1.length ≤ s.1.length + 1 := by
  unfold recRule6
  split_ifs
  · exact ⟨RecsOk_push s _ rfl h, by rw [pushRec_length]⟩
  · exact ⟨h, by omega⟩

theorem raw_recs_ids (keywords : List String) (word_count : Nat)
    (readability : ℚ) (title description : String) (cs : ContentStructure) :
    ((generate_recommendations_raw keywords word_count readability title
        description cs).map (fun r => r.id) =
      List.range' 1 (generate_recommendations_raw keywords word_count
        readability title description cs).length) ∧
    (generate_recommendations_raw keywords word_count readability title
      description cs).length ≤ 6 := by
  have h0 : RecsOk (([], 1) : List Recommendation × Nat) := ⟨rfl, rfl⟩
  have g1 := recRule1_spec title ([], 1) h0
  have g2 := recRule2_spec description _ g1.1
  have g3 := recRule3_spec keywords _ g2.1
  have g4 := recRule4_spec word_count _ g3.1
  have g5 := recRule5_spec readability _ g4.1
  have g6 := recRule6_spec cs _ g5.1
  have e0 : ((([] : List Recommendation), 1) :
      List Recommendation × Nat).1.length = 0 := rfl
  have hl1 := g1.2
  have hl2 := g2.2
  have hl3 := g3.2
  have hl4 := g4.2
  have hl5 := g5.2
  have hl6 := g6.2
  exact ⟨g6.1.2, by unfold generate_recommendations_raw; omega⟩

/-- C6: the `id` fields of the recommendations form the contiguous sequence
1, 2, ..., n in list order, and the list holds at most 8 entries. -/
theorem C6_recommendation_ids_contiguous (keywords : List String)
    (word_count : Nat) (readability : ℚ) (title description : String)
    (cs : ContentStructure) :
    ((generate_recommendations keywords word_count readability title
        description cs).map (fun r => r.id) =
      List.range' 1 (generate_recommendations keywords word_count readability
        title description cs).length) ∧
    (generate_recommendations keywords word_count readability title
      description cs).length ≤ 8 := by
  have h := raw_recs_ids keywords word_count readability title description cs
  have htake : (generate_recommendations_raw keywords word_count readability
      title description cs).take 8 =
      generate_recommendations_raw keywords word_count readability title
        description cs :=
    List.take_of_length_le (by omega)
  simp only [generate_recommendations, htake]
  exact ⟨h.1, by omega⟩

/-- C9: at most 6 recommendations are ever generated (the two title rules are
an if/elif pair, so at most one of them fires, and there are only six rule
sites), hence the final `[:8]` cap drops nothing: the returned list IS the
untruncated rule output. -/
theorem C9_cap_never_drops (keywords : List String) (word_count : Nat)
    (readability : ℚ) (title description : String) (cs : ContentStructure) :
    generate_recommendations keywords word_count readability title description
        cs =
      generate_recommendations_raw keywords word_count readability title
        description cs ∧
    (generate_recommendations_raw keywords word_count readability title
      description cs).length ≤ 6 := by
  have h := raw_recs_ids keywords word_count readability title description cs
  exact ⟨List.take_of_length_le (by omega), h.2⟩

/-!  ## calculate_readability (main.py lines 501-528)  -/

/-- `SEOAnalyzer.calculate_readability`: the textstat Flesch score when the
formula succeeds (clamped to [0,100], one decimal), else the source's
fallback: 50.0 on degenerate input, otherwise the Flesch-shaped approximation
`206.835 - 1.015*avgSentenceLength - 84.6*avgWordLength/100`. -/
def calculate_readability (ext : Ext) (text : String) : ℚ :=
  match ext.flesch text with
  | some flesch_score => max 0 (min 100 (pyRound1 flesch_score))
  | none =>
    let sentences := ext.sentTok text
    let words := ext.wordTok text
    if sentences = [] ∨ words = [] then 50
    else
      let avg_sentence_length : ℚ := (words.length : ℚ) / (sentences.length : ℚ)
      let alpha_words := words.filter (fun w => pyIsAlpha w)
      let avg_word_length : ℚ :=
        ((alpha_words.map String.length).sum : ℚ) / ((max 1 alpha_words.length : Nat) : ℚ)
      let score := 206835/1000 - (1015/1000) * avg_sentence_length
        - (846/10) * avg_word_length / 100
      max 0 (min 100 (pyRound1 score))

/-!  ## analyze_sentiment (main.py lines 530-558)  -/

/-- Python substring membership `needle in hay`. -/
def strContains (hay needle : String) : Bool :=
  (List.range (hay.data.length + 1)).any
    (fun i => ((hay.data.drop i).take needle.data.length) == needle.data)

/-- `SEOAnalyzer.analyze_sentiment`: map the AI label when the client
answers, else the TextBlob polarity thresholds. -/
def analyze_sentiment (ext : Ext) (text : String) : String :=
  match ext.aiSentimentLabel text with
  | some lab =>
    let label := pyUpper lab
    if strContains label "POSITIVE" || strContains label "POS" then "Positive"
    else if strContains label "NEGATIVE" || strContains label "NEG" then "Negative"
    else "Neutral"
  | none =>
    let polarity := ext.polarity text
    if polarity > 1/10 then "Positive"
    else if polarity < -(1/10) then "Negative"
    else "Neutral"

/-!  ## count_words, calculate_reading_time (main.py lines 560-572)  -/

/-- `SEOAnalyzer.count_words`: the alphabetic tokens of the tokenizer's
output. -/
def count_words (ext : Ext) (text : String) : Nat :=
  ((ext.wordTok text).filter (fun w => pyIsAlpha w)).length

/-- `SEOAnalyzer.calculate_reading_time`: `max(1, round(word_count / 200))`,
the division taken exactly. -/
def calculate_reading_time (word_count : Nat) : Nat :=
  max 1 (roundHalfEvenFrac (word_count : ℤ) 200).toNat

/-!  ## generate_summary (main.py lines 574-599)  -/

/-- The summary loop: skip blank sentences, append `sentence + ". "` while
within the budget, break at the first sentence exceeding it. -/
def summaryLoop (max_length : Nat) : List String → String → String
  | [], summary => summary
  | sentence :: rest, summary =>
    let sentence := pyStrip sentence
    if sentence = "" then summaryLoop max_length rest summary
    else
      let potential_summary := summary ++ sentence ++ ". "
      if potential_summary.length ≤ max_length then
        summaryLoop max_length rest potential_summary
      else summary

/-- `SEOAnalyzer.generate_summary` (the source's default `max_length=200` is
passed explicitly by the one caller). -/
def generate_summary (ext : Ext) (text : String) (max_length : Nat) : String :=
  match ext.sentTok text with
  | [] => if text.length > max_length then strTake text max_length ++ "..." else text
  | s :: rest =>
    let result := pyStrip (summaryLoop max_length (s :: rest) "")
    if result = "" then
      if text.length > max_length then strTake text max_length ++ "..." else text
    else result

/-!  ## analyze_content_structure (main.py lines 601-732)  -/

/-- Python `str.isupper()` over ASCII: at least one letter and no lowercase
letter. -/
def pyIsUpper (s : String) : Bool :=
  s.data.any Char.isAlpha && s.data.all (fun c => !c.isLower)

/-- Python `str.title()` over ASCII: each letter run starts uppercase and
continues lowercase; non-letters pass through and end the current word. -/
def pyTitle (s : String) : String :=
  String.mk ((s.data.foldl (fun (st : List Char × Bool) c =>
    if c.isAlpha then
      (st.1 ++ [if st.2 then c.toLower else c.toUpper], true)
    else (st.1 ++ [c], false)) ([], false)).1)

/-- One line of the heading-detection loop: uppercase lines of at most 8
words count as h1, title-case lines without a trailing period and at most 10
words as h2, and otherwise markdown `# `, `## `, `### ` prefixes as
h1/h2/h3. -/
def headingStep (h : Headings) (rawLine : String) : Headings :=
  let line := pyStrip rawLine
  if line = "" ∨ line.length > 100 then h
  else if pyIsUpper line ∧ (pySplitWs line).length ≤ 8 then
    { h with h1 := h.h1 + 1 }
  else if pyTitle line = line ∧ endsWithDot line = false ∧
      (pySplitWs line).length ≤ 10 then
    { h with h2 := h.h2 + 1 }
  else if startsWithLit line "#" then
    if startsWithLit line "# " then { h with h1 := h.h1 + 1 }
    else if startsWithLit line "## " then { h with h2 := h.h2 + 1 }
    else if startsWithLit line "### " then { h with h3 := h.h3 + 1 }
    else h
  else h

/-- Maximal runs of whitespace / non-whitespace characters, in order. -/
def groupRuns : List Char → List (List Char)
  | [] => []
  | c :: rest =>
    match groupRuns rest with
    | [] => [[c]]
    | g :: gs =>
      match g with
      | [] => [c] :: g :: gs
      | d :: _ =>
        if isPySpace c = isPySpace d then (c :: g) :: gs else [c] :: g :: gs

/-- Rebuild the pieces of `re.split(r"\n\s*\n", text)` from the runs: a
whitespace run holding at least two newlines is a separator (the regex needs
a newline, greedy whitespace, a newline, all inside one whitespace run); its
prefix before the first newline stays with the preceding piece and its suffix
after the last newline with the following piece, since the greedy match with
backtracking spans first newline to last newline of the run. -/
def splitPieces : List (List Char) → List (List Char)
  | [] => [[]]
  | g :: gs =>
    let rest := splitPieces gs
    if g.all isPySpace ∧ 2 ≤ g.count '\n' then
      let pre := g.takeWhile (fun c => c ≠ '\n')
      let suf := (g.reverse.takeWhile (fun c => c ≠ '\n')).reverse
      match rest with
      | p :: ps => pre :: (suf ++ p) :: ps
      | [] => [pre, suf]
    else
      match rest with
      | p :: ps => (g ++ p) :: ps
      | [] => [g]

/-- `re.split(r"\n\s*\n", text)`. -/
def reSplitBlank (s : String) : List String :=
  (splitPieces (groupRuns s.data)).map String.mk

/-- The local `get_reading_grade` of `analyze_content_structure`. -/
def get_reading_grade (flesch_score : ℚ) : String :=
  if flesch_score ≥ 90 then "5th grade"
  else if flesch_score ≥ 80 then "6th grade"
  else if flesch_score ≥ 70 then "7th grade"
  else if flesch_score ≥ 60 then "8th-9th grade"
  else if flesch_score ≥ 50 then "10th-12th grade"
  else if flesch_score ≥ 30 then "College level"
  else "Graduate level"

/-- The local `get_complexity_level` of `analyze_content_structure`. -/
def get_complexity_level (flesch_score : ℚ) : String :=
  if flesch_score ≥ 70 then "Easy"
  else if flesch_score ≥ 30 then "Medium"
  else "Hard"

/-- `SEOAnalyzer.analyze_content_structure`, translated block by block:
heading detection, the two heading issues, blank-line paragraph splitting
with the over-20-characters filter, readability labels, and linking
suggestions (AI suggestions first, the three keyword-category rules, the
three generic defaults when nothing triggered, truncation to 4). -/
def analyze_content_structure (ext : Ext) (text : String) : ContentStructure :=
  let lines := pySplitLines text
  let counts := lines.foldl headingStep
    { h1 := 0, h2 := 0, h3 := 0, h4 := 0, issues := [] }
  let issues :=
    (if counts.h1 = 0 ∧ counts.h2 = 0 then
      ["No clear headings found - consider adding structure"] else []) ++
    (if counts.h1 > 1 then ["Multiple H1-level headings detected"] else [])
  let headings : Headings := { counts with issues := issues }
  let paragraphs_text := ((reSplitBlank text).map pyStrip).filter
    (fun p => p ≠ "" ∧ p.length > 20)
  let word_counts := paragraphs_text.map (fun p => (ext.wordTok p).length)
  let avg_paragraph_length : ℚ :=
    if paragraphs_text = [] then 0
    else (word_counts.sum : ℚ) / (word_counts.length : ℚ)
  let long_paragraphs : Nat :=
    if paragraphs_text = [] then 0
    else (word_counts.filter (fun wc => wc > 150)).length
  let paragraphs_analysis : Paragraphs :=
    { total := paragraphs_text.length
      averageLength := pyRound1 avg_paragraph_length
      longParagraphs := long_paragraphs }
  let readability_score := calculate_readability ext text
  let readability_analysis : ReadabilityInfo :=
    { fleschScore := readability_score
      grade := get_reading_grade readability_score
      complexity := get_complexity_level readability_score }
  let keywords := extract_keywords ext text 20
  let ai_suggestions := ext.aiSuggestions text keywords
  let keyword_set := keywords.map pyLower
  let ls := ai_suggestions ++
    (if ["guide", "tutorial", "how", "step"].any
        (fun w => keyword_set.contains w) then
      ["Link to related tutorials or guides on your website"] else []) ++
    (if ["product", "service", "solution", "tool"].any
        (fun w => keyword_set.contains w) then
      ["Add links to relevant product or service pages"] else []) ++
    (if ["research", "study", "data", "analysis"].any
        (fun w => keyword_set.contains w) then
      ["Link to supporting research or case studies"] else [])
  let linking_suggestions :=
    if ls = [] then
      ["Add links to related articles on your website",
       "Include links to your main category pages",
       "Link to your contact or about page where relevant"]
    else ls
  { headings := headings
    paragraphs := paragraphs_analysis
    readability := readability_analysis
    linkingSuggestions := linking_suggestions.take 4 }

/-!  ## determine_content_health (main.py lines 817-828)  -/

/-- `SEOAnalyzer.determine_content_health`. -/
def determine_content_health (readability : ℚ) (word_count : Nat)
    (keywords : List String) : String :=
  if readability ≥ 70 ∧ word_count ≥ 300 ∧ keywords.length ≥ 5 then "Excellent"
  else if readability ≥ 50 ∧ word_count ≥ 200 ∧ keywords.length ≥ 3 then "Good"
  else if readability ≥ 30 ∧ word_count ≥ 100 then "Fair"
  else "Needs Improvement"

/-!  ## analyze and the /api/analyze endpoint (main.py lines 966-1027 and
1055-1110; the endpoint's `except Exception` path is unreachable in this
total embedding and is not modelled)  -/

/-- `SEOAnalyzer.analyze`: the orchestration, in source order. -/
def analyze (ext : Ext) (text : String) : AnalysisResult :=
  let title := extract_title ext text
  let meta_description := generate_meta_description ext text
  let keywords := extract_keywords ext text 10
  let readability_score := calculate_readability ext text
  let word_count := count_words ext text
  let reading_time := calculate_reading_time word_count
  let sentiment := analyze_sentiment ext text
  let summary := generate_summary ext text 200
  let content_structure := analyze_content_structure ext text
  let google_preview := create_google_preview title meta_description
  let seo_score := calculate_seo_score readability_score word_count keywords
    title meta_description
  let health_status := determine_content_health readability_score word_count
    keywords
  let recommendations := generate_recommendations keywords word_count
    readability_score title meta_description content_structure
  { seoScore := seo_score
    contentHealth :=
      { readabilityScore := readability_score
        readingTime := reading_time
        wordCount := word_count
        health := health_status }
    contentStructure := content_structure
    recommendations := recommendations
    metaTags :=
      { title := title
        description := meta_description
        keywords := keywords.take 10 }
    googlePreview := google_preview
    sentiment := sentiment
    keywords := keywords
    rawText := summary }

/-- The canned result the endpoint returns for empty or whitespace-only
input (main.py lines 1058-1110), field by field. -/
def emptyAnalysisResult : AnalysisResult where
  seoScore := 0
  contentHealth :=
    { readabilityScore := 0
      readingTime := 0
      wordCount := 0
      health := "Needs Improvement" }
  contentStructure :=
    { headings :=
        { h1 := 0, h2 := 0, h3 := 0, h4 := 0, issues := ["No content provided"] }
      paragraphs := { total := 0, averageLength := 0, longParagraphs := 0 }
      readability := { fleschScore := 0, grade := "N/A", complexity := "Medium" }
      linkingSuggestions := ["Add content to analyze"] }
  recommendations :=
    [{ id := 1
       title := "Add Content to Analyze"
       description := "Please provide content to analyze for SEO optimization opportunities."
       impact := "High"
       effort := "Quick Fix"
       category := "Content"
       priority := 1
       actionable := true
       fixSuggestion := "Paste your content into the text area and click analyze again to get AI-powered insights." }]
  metaTags :=
    { title := "No Content"
      description := "No content provided for analysis"
      keywords := [] }
  googlePreview :=
    { title := "No Content"
      url := "yoursite.com"
      description := "No content provided for analysis"
      titleTruncated := false
      descriptionTruncated := false }
  sentiment := "Neutral"
  keywords := []
  rawText := "No content to analyze"

/-- The `/api/analyze` endpoint body `analyze_content`: the canned result on
blank input (`if not request.text.strip()`), else the full analysis. -/
def analyze_content (ext : Ext) (text : String) : AnalysisResult :=
  if pyStrip text = "" then emptyAnalysisResult
  else analyze ext text

/-!  ## Claims about the endpoint  -/

/-- C2: for every request whose text is empty or whitespace-only, the
endpoint returns the canned result: seoScore 0, health "Needs Improvement",
wordCount 0, readingTime 0, an empty keyword list, and exactly one
recommendation, titled "Add Content to Analyze" with id 1. -/
theorem C2_blank_input_canned (ext : Ext) (text : String)
    (h : pyStrip text = "") :
    (analyze_content ext text).seoScore = 0 ∧
    (analyze_content ext text).contentHealth.health = "Needs Improvement" ∧
    (analyze_content ext text).contentHealth.wordCount = 0 ∧
    (analyze_content ext text).contentHealth.readingTime = 0 ∧
    (analyze_content ext text).keywords = [] ∧
    ((analyze_content ext text).recommendations.map (fun r => r.title)) =
      ["Add Content to Analyze"] ∧
    ((analyze_content ext text).recommendations.map (fun r => r.id)) = [1] := by
  unfold analyze_content
  rw [if_pos h]
  exact ⟨rfl, rfl, rfl, rfl, rfl, rfl, rfl⟩

/-- C2 witness: the whitespace-only request `" "` gets the canned result. -/
theorem C2_blank_input_canned_witness :
    (analyze_content simpleExt " ").seoScore = 0 ∧
    (analyze_content simpleExt " ").contentHealth.health = "Needs Improvement" ∧
    (analyze_content simpleExt " ").contentHealth.wordCount = 0 ∧
    (analyze_content simpleExt " ").contentHealth.readingTime = 0 ∧
    (analyze_content simpleExt " ").keywords = [] ∧
    ((analyze_content simpleExt " ").recommendations.map (fun r => r.title)) =
      ["Add Content to Analyze"] ∧
    ((analyze_content simpleExt " ").recommendations.map (fun r => r.id)) = [1] :=
  C2_blank_input_canned simpleExt " " (by decide)

/-- C4 counterexample: the non-blank input `"1234"` has no alphabetic word
token, so the endpoint's result has `wordCount = 0`; but its `readingTime` is
`max(1, round(0 / 200)) = 1`, not the 0 the claim requires for a zero word
count. -/
theorem C4_counterexample :
    (analyze_content simpleExt "1234").contentHealth.wordCount = 0 ∧
    (analyze_content simpleExt "1234").contentHealth.readingTime = 1 := by
  constructor <;> decide

/-- C4 amended: readingTime is 0 exactly on the canned blank-input response
(where wordCount is also 0); on every analyzed non-blank text, readingTime is
`max(1, round(wordCount / 200))`, hence at least 1 — also for non-empty
inputs with no alphabetic word tokens, whose wordCount is 0 yet whose
readingTime is 1. -/
theorem C4_reading_time_amended (ext : Ext) (text : String) :
    (pyStrip text = "" →
      (analyze_content ext text).contentHealth.readingTime = 0 ∧
      (analyze_content ext text).contentHealth.wordCount = 0) ∧
    (pyStrip text ≠ "" →
      (analyze_content ext text).contentHealth.readingTime =
        calculate_reading_time
          ((analyze_content ext text).contentHealth.wordCount) ∧
      1 ≤ (analyze_content ext text).contentHealth.readingTime) := by
  constructor
  · intro h
    unfold analyze_content
    rw [if_pos h]
    exact ⟨rfl, rfl⟩
  · intro h
    unfold analyze_content
    rw [if_neg h]
    refine ⟨rfl, ?_⟩
    show 1 ≤ calculate_reading_time (count_words ext text)
    exact Nat.le_max_left 1 _

/-- C10: the score sum's floor is 28 (buckets contribute at least
10 + 5 + 5 + 5 + 3), so the defensive `max(0, ...)` clamp is unreachable,
and a `seoScore` of 0 can only be the canned blank-input response, never an
analyzed text's result. -/
theorem C10_score_floor_28 :
    (∀ (r : ℚ) (wc : Nat) (kws : List String) (t d : String),
      28 ≤ calculate_seo_score r wc kws t d) ∧
    (∀ (ext : Ext) (text : String),
      (analyze_content ext text).seoScore = 0 →
        analyze_content ext text = emptyAnalysisResult) := by
  have floor : ∀ (r : ℚ) (wc : Nat) (kws : List String) (t d : String),
      28 ≤ calculate_seo_score r wc kws t d := by
    intro r wc kws t d
    rw [calculate_seo_score_eq_sum]
    exact (specScoreSum_bounds r wc kws.length t.length d.length).1
  refine ⟨floor, ?_⟩
  intro ext text h
  unfold analyze_content at h ⊢
  split_ifs at h ⊢ with hb
  · rfl
  · exfalso
    have hs : (analyze ext text).seoScore = calculate_seo_score
        (calculate_readability ext text) (count_words ext text)
        (extract_keywords ext text 10) (extract_title ext text)
        (generate_meta_description ext text) := rfl
    rw [hs] at h
    have hf := floor (calculate_readability ext text) (count_words ext text)
      (extract_keywords ext text 10) (extract_title ext text)
      (generate_meta_description ext text)
    omega

end SEO
